import Mathlib

/-!
Verification of the tensorizer streaming deserialization engine and of the
example driver `examples/deserialize.py`.

The repository ships the driver; the engine behind `TensorDeserializer` is
described by the design document.  The engine components are therefore
modelled from the spec (each such definition says so in its doc comment),
while the driver definitions are translated directly from
`examples/deserialize.py`.
-/

deriving instance DecidableEq for Except

namespace Tensorizer

/-- Modelled from the spec: the error taxonomy of §7 (the engine source is
not in the repository).  `HashMismatch` carries the tensor name and both
digests, per §4.4. -/
inductive TzError where
  | CorruptHeader
  | UnsupportedVersion
  | UnknownTensor
  | MissingDecryptionParams
  | DecryptionError
  | HashMismatch (name : String) (expected actual : Nat)
  | ShapeSizeMismatch (name : String)
  | DestinationOverflow (name : String)
  | IOError
  | Cancelled
  | DeserializerClosed
  deriving Repr, DecidableEq

/-- Modelled from the spec: the content-hash digest over a byte sequence
(§2 Hash Verifier, §3).  The spec fixes no hash algorithm, only the
protocol shape, so the digest is modelled as an injective accumulator over
byte lists (built from `Nat.pair`), which makes tamper detection exact. -/
def digest : List Nat → Nat
  | [] => 0
  | b :: bs => Nat.pair b (digest bs) + 1

/-- Modelled from the spec: per-tensor descriptor record (§3):
name, dtype, shape, byte offset and length within the data region,
content-hash digest, encrypted flag. -/
structure TensorDescriptor where
  name : String
  dtype : Nat
  shape : List Nat
  offset : Nat
  length : Nat
  contentHash : Nat
  encrypted : Bool
  deriving Repr, DecidableEq

/-- Modelled from the spec: derived key material for decrypting tensor
payloads (§3 DecryptionContext). -/
structure DecryptionContext where
  key : Nat
  deriving Repr, DecidableEq

/-- Modelled from the spec: the option set of `open` (§6): `plaid_mode`,
`lazy_load`, `decryption`, `num_readers`, `verify_hash`. -/
structure Options where
  plaid_mode : Bool
  lazy_load : Bool
  decryption : Option DecryptionContext
  num_readers : Nat
  verify_hash : Bool
  deriving Repr, DecidableEq

/-- Modelled from the spec: a parsed container: the ordered index of
descriptors (§3 ContainerIndex) plus the data region's bytes. -/
structure Container where
  tensors : List TensorDescriptor
  data : List Nat
  deriving Repr, DecidableEq

/-- Modelled from the spec: the sized random-access range read of a
tensor's payload out of the data region (§2 Byte Source, §3: the
descriptor's offset and length address the data region). -/
def payload (C : Container) (d : TensorDescriptor) : List Nat :=
  (C.data.drop d.offset).take d.length

/-- Modelled from the spec: payload decryption with a derived key (§4.3).
The cipher itself is an implementation choice; modelled as a bytewise
keyed transform, which preserves length. -/
def decryptBytes (ctx : DecryptionContext) (bs : List Nat) : List Nat :=
  bs.map fun b => (b + 256 - ctx.key % 256) % 256

/-- Modelled from the spec: the decrypt stage (§4.3): invoked only when
the descriptor's encrypted flag is set; if the flag is set but no context
was supplied, fails with MissingDecryptionParams. -/
def decodeStage (opts : Options) (d : TensorDescriptor) (raw : List Nat) :
    Except TzError (List Nat) :=
  if d.encrypted then
    match opts.decryption with
    | none => Except.error TzError.MissingDecryptionParams
    | some ctx => Except.ok (decryptBytes ctx raw)
  else Except.ok raw

/-- Modelled from the spec: the hash-verification stage (§4.4): when
verification is requested, recompute the digest over the decrypted bytes
and compare to the descriptor's stored hash; on mismatch fail with
HashMismatch carrying the tensor name and both digests. -/
def verifyStage (opts : Options) (d : TensorDescriptor) (plain : List Nat) :
    Except TzError (List Nat) :=
  if opts.verify_hash then
    if digest plain = d.contentHash then Except.ok plain
    else Except.error (TzError.HashMismatch d.name d.contentHash (digest plain))
  else Except.ok plain

/-- Modelled from the spec: the per-tensor pipeline
read → decrypt → verify (§2 data flow, §4.2): a pure function of the
descriptor, the source bytes and the options (§9 design note). -/
def runPipeline (opts : Options) (C : Container) (d : TensorDescriptor) :
    Except TzError (List Nat) :=
  match decodeStage opts d (payload C d) with
  | Except.error e => Except.error e
  | Except.ok plain => verifyStage opts d plain

/-- Modelled from the spec: per-tensor LoadState (§3). -/
inductive LoadState where
  | Pending
  | InFlight
  | Ready
  | Failed (e : TzError)
  deriving Repr, DecidableEq

/-- Modelled from the spec: the terminal LoadState of a pipeline outcome
(§3: InFlight→Ready on success, InFlight→Failed on any stage error). -/
def stateOfOutcome : Except TzError (List Nat) → LoadState
  | Except.ok _ => LoadState.Ready
  | Except.error e => LoadState.Failed e

/-- Modelled from the spec: the LoadReport returned by `load_into` (§7):
the per-tensor states plus the list of every failed tensor with its
error. -/
structure LoadReport where
  states : List (String × LoadState)
  failures : List (String × TzError)
  deriving Repr, DecidableEq

/-- Modelled from the spec: `load_into` (§6, §7): drives the pipeline for
every indexed tensor, localizes failures to each tensor's LoadState and
aggregates them into the returned LoadReport instead of raising on the
first failure. -/
def loadInto (opts : Options) (C : Container) : LoadReport :=
  { states := C.tensors.map fun d => (d.name, stateOfOutcome (runPipeline opts C d))
    failures := C.tensors.filterMap fun d =>
      match runPipeline opts C d with
      | Except.error e => some (d.name, e)
      | Except.ok _ => none }

/-- Modelled from the spec: writing `src` into the front of an existing
memory region (§4.5): bytes past `src` keep the region's old contents and
the region is never grown. -/
def writeInto (region src : List Nat) : List Nat :=
  (src ++ region.drop src.length).take region.length

/-- Modelled from the spec: byte width of one element of a dtype (§4.5);
the dtype tag is modelled as the element width itself (an implementation
choice the spec leaves open). -/
def elementSize (dtype : Nat) : Nat := dtype

/-- Modelled from the spec: `element_size(dtype) * product(shape)`
(§4.5 eager mode). -/
def shapeBytes (d : TensorDescriptor) : Nat :=
  elementSize d.dtype * d.shape.prod

/-- Modelled from the spec: eager/copy destination binding (§4.5):
allocate a fresh host buffer of exactly `length` zero bytes, check the
dtype/shape byte length, and copy the plaintext into the buffer. -/
def bindEager (opts : Options) (C : Container) (d : TensorDescriptor) :
    Except TzError (List Nat) :=
  match runPipeline opts C d with
  | Except.error e => Except.error e
  | Except.ok plain =>
    if d.length = shapeBytes d then
      Except.ok (writeInto (List.replicate d.length 0) plain)
    else Except.error (TzError.ShapeSizeMismatch d.name)

/-- Modelled from the spec: plaid/zero-copy destination binding (§4.5):
the host pre-registers a region; the binder writes decoded bytes directly
into it, performing no allocation, and the region must already be sized to
exactly match the descriptor. -/
def bindPlaid (opts : Options) (C : Container) (region : List Nat)
    (d : TensorDescriptor) : Except TzError (List Nat) :=
  match runPipeline opts C d with
  | Except.error e => Except.error e
  | Except.ok plain =>
    if region.length = d.length then
      Except.ok (writeInto region plain)
    else Except.error (TzError.DestinationOverflow d.name)

/-- Modelled from the spec: the fail-fast check at `open` (§4.3, §6): if
any descriptor's encrypted flag is set and no DecryptionContext was
supplied, `open` fails with MissingDecryptionParams. -/
def openCheck (opts : Options) (C : Container) : Except TzError Unit :=
  if (C.tensors.any fun d => d.encrypted) && opts.decryption.isNone then
    Except.error TzError.MissingDecryptionParams
  else Except.ok ()

/-- Modelled from the spec: the number of payload range reads a full load
issues: one per tensor pipeline executed (§2 data flow). -/
def payloadReadsOfLoad (C : Container) : Nat := C.tensors.length

/-- Modelled from the spec: open followed by eager loading, instrumented
with the count of payload range reads issued (§8 missing-secret property:
the I/O-call counter).  When `open` fails, no pipeline runs and no payload
range read is issued. -/
def openThenLoad (opts : Options) (C : Container) :
    Except TzError LoadReport × Nat :=
  match openCheck opts C with
  | Except.error e => (Except.error e, 0)
  | Except.ok _ => (Except.ok (loadInto opts C), payloadReadsOfLoad C)

/-- Modelled from the spec: the PerfStats snapshot (§3): aggregate
counters of total tensor bytes processed and per-stage bytes. -/
structure PerfStats where
  totalBytes : Nat
  readBytes : Nat
  decryptBytes : Nat
  transferBytes : Nat
  deriving Repr, DecidableEq

/-- Modelled from the spec: the all-zero counter state before any task
has recorded (§4.6). -/
def initialStats : PerfStats :=
  { totalBytes := 0, readBytes := 0, decryptBytes := 0, transferBytes := 0 }

/-- Modelled from the spec: stats recorded by one tensor's pipeline
(§4.6: each stage records its byte count on every task): the read stage
records the raw range-read bytes; on success the binder records the
delivered plaintext bytes, which also accumulate the total tensor bytes
processed. -/
def pipelineStats (opts : Options) (C : Container) (s : PerfStats)
    (d : TensorDescriptor) : PerfStats :=
  let raw := payload C d
  let s1 := { s with readBytes := s.readBytes + raw.length }
  match runPipeline opts C d with
  | Except.ok plain =>
    { s1 with
      totalBytes := s1.totalBytes + plain.length
      transferBytes := s1.transferBytes + plain.length }
  | Except.error _ => s1

/-- Modelled from the spec: the counter state after a full eager load has
run every tensor's pipeline in container order (§2 data flow, §4.6). -/
def loadStats (opts : Options) (C : Container) : PerfStats :=
  C.tensors.foldl (pipelineStats opts C) initialStats

/-- Modelled from the spec: `total_tensor_bytes()` (§6): total tensor
bytes processed by the load. -/
def totalTensorBytes (opts : Options) (C : Container) : Nat :=
  (loadStats opts C).totalBytes

/-- Modelled from the spec: the container's magic bytes (§6 layout); the
concrete value is an implementation choice. -/
def MAGIC : List Nat := [84, 90, 82, 33]

/-- Modelled from the spec: the format versions this engine supports
(§4.1); the concrete set is an implementation choice. -/
def supportedVersions : List Nat := [1]

/-- Modelled from the spec: read an `n`-byte little-endian unsigned
integer off the front of a byte stream (§6: widths and endianness are an
implementation choice, kept self-consistent here); fails if the stream is
too short. -/
def readLE : Nat → List Nat → Option (Nat × List Nat)
  | 0, rest => some (0, rest)
  | _ + 1, [] => none
  | n + 1, b :: rest =>
    match readLE n rest with
    | none => none
    | some (v, rest') => some (b + 256 * v, rest')

/-- Modelled from the spec: read `n` raw bytes off the front of a byte
stream; fails if the stream is too short. -/
def readChunk : Nat → List Nat → Option (List Nat × List Nat)
  | 0, rest => some ([], rest)
  | _ + 1, [] => none
  | n + 1, b :: rest =>
    match readChunk n rest with
    | none => none
    | some (cs, rest') => some (b :: cs, rest')

/-- Modelled from the spec: parse `n` shape dimensions, two bytes each
(§6 layout: shape dimensions per descriptor record). -/
def parseDims : Nat → List Nat → Option (List Nat × List Nat)
  | 0, rest => some ([], rest)
  | n + 1, bs =>
    match readLE 2 bs with
    | none => none
    | some (dim, rest) =>
      match parseDims n rest with
      | none => none
      | some (dims, rest') => some (dim :: dims, rest')

/-- Modelled from the spec: parse one descriptor record (§6 layout: name,
dtype tag, shape dimensions, offset, length, content-hash digest,
encrypted-flag bit; widths are the implementation choice fixed here). -/
def parseRecord (bs : List Nat) : Option (TensorDescriptor × List Nat) :=
  match readLE 1 bs with
  | none => none
  | some (nameLen, r1) =>
    match readChunk nameLen r1 with
    | none => none
    | some (nameBytes, r2) =>
      match readLE 1 r2 with
      | none => none
      | some (dtype, r3) =>
        match readLE 1 r3 with
        | none => none
        | some (shapeLen, r4) =>
          match parseDims shapeLen r4 with
          | none => none
          | some (dims, r5) =>
            match readLE 4 r5 with
            | none => none
            | some (off, r6) =>
              match readLE 4 r6 with
              | none => none
              | some (len, r7) =>
                match readLE 8 r7 with
                | none => none
                | some (h, r8) =>
                  match readLE 1 r8 with
                  | none => none
                  | some (encB, r9) =>
                    some ({ name := String.mk (nameBytes.map Char.ofNat)
                            dtype := dtype
                            shape := dims
                            offset := off
                            length := len
                            contentHash := h
                            encrypted := encB ≠ 0 }, r9)

/-- Modelled from the spec: parse exactly the declared number of
descriptor records (§4.1); fails if the stream runs out before the
declared entry count is met. -/
def parseRecords : Nat → List Nat → Option (List TensorDescriptor × List Nat)
  | 0, rest => some ([], rest)
  | n + 1, bs =>
    match parseRecord bs with
    | none => none
    | some (d, rest) =>
      match parseRecords n rest with
      | none => none
      | some (ds, rest') => some (d :: ds, rest')

/-- Modelled from the spec: the header's declared entry count as read back
from raw bytes (after magic and version). -/
def declaredEntryCount (bs : List Nat) : Option Nat :=
  match readLE 1 (bs.drop 4) with
  | none => none
  | some (_, r1) =>
    match readLE 2 r1 with
    | none => none
    | some (cnt, _) => some cnt

/-- Modelled from the spec: `parse(source)` (§4.1): fixed-layout header
(magic bytes, version, entry count), one record per tensor, then the data
region; fails with CorruptHeader if magic bytes mismatch, the version is
unsupported, the declared entry count does not match the parsed entries
(the record stream is exhausted early), the data region is truncated, or a
descriptor's extent escapes the declared data region; tolerates trailing
padding. -/
def parseContainer (bs : List Nat) : Except TzError Container :=
  if bs.take 4 = MAGIC then
    match readLE 1 (bs.drop 4) with
    | none => Except.error TzError.CorruptHeader
    | some (v, r1) =>
      if supportedVersions.contains v then
        match readLE 2 r1 with
        | none => Except.error TzError.CorruptHeader
        | some (cnt, r2) =>
          match parseRecords cnt r2 with
          | none => Except.error TzError.CorruptHeader
          | some (ds, r3) =>
            match readLE 4 r3 with
            | none => Except.error TzError.CorruptHeader
            | some (dlen, r4) =>
              if dlen ≤ r4.length then
                if ds.all fun d => d.offset + d.length ≤ dlen then
                  Except.ok { tensors := ds, data := r4.take dlen }
                else Except.error TzError.CorruptHeader
              else Except.error TzError.CorruptHeader
      else Except.error TzError.CorruptHeader
  else Except.error TzError.CorruptHeader

/-- Modelled from the spec: the Deserializer facade's lifecycle states
(§4.7). -/
inductive Phase where
  | Created
  | Opened
  | Loading
  | Closed
  deriving Repr, DecidableEq

/-- Modelled from the spec: the facade's resource-holding state (§4.7):
lifecycle phase, whether the Byte Source and DecryptionContext are held,
and how many times resources have been released (to observe
double-release). -/
structure Facade where
  phase : Phase
  sourceHeld : Bool
  decryptionHeld : Bool
  releaseCount : Nat
  deriving Repr, DecidableEq

/-- Modelled from the spec: `close()` (§4.7, §6): releases the Byte
Source and DecryptionContext on the first call; on a facade already in
`Closed`, does nothing and reports no error (idempotent). -/
def closeFacade (f : Facade) : Facade × Option TzError :=
  if f.phase = Phase.Closed then (f, none)
  else
    ({ phase := Phase.Closed
       sourceHeld := false
       decryptionHeld := false
       releaseCount := f.releaseCount + 1 }, none)

/-- Modelled from the spec: the facade operations other than `close`
(§6). -/
inductive FacadeOp where
  | loadIntoOp
  | getTensorOp (name : String)
  | totalBytesOp
  | perfStatsOp
  deriving Repr, DecidableEq

/-- Modelled from the spec: dispatching a non-close operation on the
facade (§4.7): after `Closed`, all further operations fail with
`DeserializerClosed`. -/
def dispatch (f : Facade) (_op : FacadeOp) : Except TzError Facade :=
  if f.phase = Phase.Closed then Except.error TzError.DeserializerClosed
  else Except.ok { f with phase := Phase.Loading }

/-- Name-keyed lookup in a per-tensor result list (callers that need
deterministic iteration consume by name, §4.2). -/
def lookupName {α : Type} (k : String) : List (String × α) → Option α
  | [] => none
  | (n, v) :: rest => if n = k then some v else lookupName k rest

/-- Modelled from the spec: the per-tensor results of processing the
descriptors in a given completion order (§4.2): each worker task is a
pure function of the descriptor, the source and the options, so the
result list is the order's image under the pipeline. -/
def statesFor (opts : Options) (C : Container)
    (order : List TensorDescriptor) : List (String × Except TzError (List Nat)) :=
  order.map fun d => (d.name, runPipeline opts C d)

end Tensorizer

namespace DeserializeExample

/-- Python exceptions the driver `examples/deserialize.py` can raise in
the paths modelled here. -/
inductive PyError where
  | nameError (name : String)
  | zeroDivisionError
  deriving Repr, DecidableEq

/-- The driver's command-line arguments (lines 13-23 of
`examples/deserialize.py`). -/
structure Args where
  source : Option String
  model_ref : String
  no_plaid : Bool
  lazy_load : Bool
  verify_hash : Bool
  encryption : Bool
  viztracer : Bool
  num_readers : Int
  deriving Repr, DecidableEq

/-- One piece of a Python f-string: a literal, or an interpolated name. -/
inductive FPart where
  | lit (s : String)
  | interp (name : String)
  deriving Repr, DecidableEq

/-- The f-string of line 31 of `examples/deserialize.py`:
the literal s3:// scheme, the interpolated name s3_bucket, a slash, the
interpolated name model_name, and the literal .tensors suffix. -/
def sourceDefaultFString : List FPart :=
  [FPart.lit "s3://", FPart.interp "s3_bucket", FPart.lit "/",
   FPart.interp "model_name", FPart.lit ".tensors"]

/-- Evaluate an f-string against an environment of bound names; an
interpolation whose name is unbound raises NameError, exactly as Python
name resolution does. -/
def evalFString (env : List (String × String)) : List FPart → Except PyError String
  | [] => Except.ok ""
  | FPart.lit s :: rest =>
    match evalFString env rest with
    | Except.error e => Except.error e
    | Except.ok t => Except.ok (s ++ t)
  | FPart.interp n :: rest =>
    match Tensorizer.lookupName n env with
    | none => Except.error (PyError.nameError n)
    | some v =>
      match evalFString env rest with
      | Except.error e => Except.error e
      | Except.ok t => Except.ok (v ++ t)

/-- Every name the module `examples/deserialize.py` ever binds at top
level: the imports of lines 2-10 and line 35, and the assignments of
lines 13-93. -/
def moduleBoundNames : List String :=
  ["argparse", "os", "time", "torch", "TensorDeserializer",
   "DecryptionParams", "tensorizer", "no_init_or_tensor", "convert_bytes",
   "get_mem_usage", "AutoModelForCausalLM", "AutoTokenizer", "AutoConfig",
   "parser", "args", "model_ref", "model_name", "tracer", "viztracer",
   "decryption_params", "config", "model", "before_mem", "start",
   "deserializer", "end", "total_bytes_str", "duration", "per_second",
   "after_mem", "tokenizer", "eos", "input_ids", "output", "perf_stats"]

/-- The module globals in scope when line 31 of
`examples/deserialize.py` runs: the imports of lines 2-10 and the
assignments of lines 13-28 (values of non-string bindings are opaque
placeholders; only the bound names matter for name resolution). -/
def driverEnv (args : Args) (model_name : String) : List (String × String) :=
  [("argparse", "<module>"), ("os", "<module>"), ("time", "<module>"),
   ("torch", "<module>"), ("TensorDeserializer", "<class>"),
   ("DecryptionParams", "<class>"), ("tensorizer", "<module>"),
   ("no_init_or_tensor", "<function>"), ("convert_bytes", "<function>"),
   ("get_mem_usage", "<function>"), ("AutoModelForCausalLM", "<class>"),
   ("AutoTokenizer", "<class>"), ("AutoConfig", "<class>"),
   ("parser", "<ArgumentParser>"), ("args", "<Namespace>"),
   ("model_ref", args.model_ref), ("model_name", model_name)]

/-- Line 28 of `examples/deserialize.py`: the last slash-separated
component of the model reference. -/
def modelNameOf (args : Args) : String :=
  (args.model_ref.splitOn "/").getLastD ""

/-- Lines 30-31 of `examples/deserialize.py`: when no --source argument
was given, the default source is the f-string of line 31 evaluated in the
module's globals. -/
def resolveSource (args : Args) : Except PyError String :=
  match args.source with
  | some s => Except.ok s
  | none => evalFString (driverEnv args (modelNameOf args)) sourceDefaultFString

/-- Python's true division: raises ZeroDivisionError when the divisor is
exactly zero (the driver guards none of its divisions). -/
def pyDiv (a b : ℚ) : Except PyError ℚ :=
  if b = 0 then Except.error PyError.zeroDivisionError else Except.ok (a / b)

/-- Externally observable steps of the driver run, in program order. -/
inductive DriverEvent where
  | constructDeserializer
  | loadIntoModule
  | closeDeserializer
  | printLine
  | generateText
  deriving Repr, DecidableEq

/-- The measured quantities the driver's reporting divides by or
reports: the wall-clock timestamps of lines 54 and 64, the loaded byte
total of line 70, and the perf-stats counters of lines 93-95. -/
structure Measurements where
  totalTensorBytes : ℚ
  startTime : ℚ
  endTime : ℚ
  cudaBytes : ℚ
  cudaToDeviceSecs : ℚ
  fileReadintoBytes : ℚ
  fileReadintoSecs : ℚ
  deriving Repr, DecidableEq

/-- The driver `examples/deserialize.py` as a sequence of observable
events with at most one raised exception: resolve the source
(lines 30-31), construct the deserializer and load into the module
(lines 55-63), divide by the wall-clock duration (lines 71-72), close and
print (lines 74-77), generate text (lines 80-92), then divide by the
cuda and readinto elapsed counters (lines 93-95). -/
def runDriver (args : Args) (m : Measurements) :
    List DriverEvent × Option PyError :=
  match resolveSource args with
  | Except.error e => ([], some e)
  | Except.ok _src =>
    let evs1 := [DriverEvent.constructDeserializer, DriverEvent.loadIntoModule]
    match pyDiv m.totalTensorBytes (m.endTime - m.startTime) with
    | Except.error e => (evs1, some e)
    | Except.ok _per_second =>
      let evs2 := evs1 ++ [DriverEvent.closeDeserializer, DriverEvent.printLine,
        DriverEvent.generateText]
      match pyDiv m.cudaBytes m.cudaToDeviceSecs with
      | Except.error e => (evs2, some e)
      | Except.ok _ =>
        match pyDiv m.fileReadintoBytes m.fileReadintoSecs with
        | Except.error e => (evs2 ++ [DriverEvent.printLine], some e)
        | Except.ok _ => (evs2 ++ [DriverEvent.printLine, DriverEvent.printLine], none)

/-- Lines 38-40 of `examples/deserialize.py`: the decryption parameters
derived from the caller's secret (the SUPER_SECRET_STRONG_PASSWORD
environment variable) via DecryptionParams.from_string, present exactly
when --encryption was passed. -/
structure DecryptionParams where
  secret : String
  deriving Repr, DecidableEq

/-- The DecryptionParams.from_string constructor as called on line 40. -/
def DecryptionParams.from_string (s : String) : DecryptionParams :=
  { secret := s }

/-- Lines 38-40 of `examples/deserialize.py`. -/
def decryptionParamsArg (args : Args) (password : String) : Option DecryptionParams :=
  if args.encryption then some (DecryptionParams.from_string password) else none

/-- The keyword arguments supplied to the TensorDeserializer construction
on lines 55-62 of `examples/deserialize.py` (the source is positional). -/
def tensorDeserializerCallKeywords : List String :=
  ["plaid_mode", "lazy_load", "encryption", "num_readers", "verify_hash"]

/-- The TensorDeserializer construction of lines 55-62, field per keyword
argument. -/
structure TDCall where
  source : String
  plaid_mode : Bool
  lazy_load : Bool
  encryption : Option DecryptionParams
  num_readers : Int
  verify_hash : Bool
  deriving Repr, DecidableEq

/-- Lines 55-62 of `examples/deserialize.py`: the deserializer is
constructed with plaid_mode = not --no-plaid, the lazy-load and
verify-hash flags, the optional decryption parameters under the
`encryption` keyword, and the reader count. -/
def mkTDCall (args : Args) (src : String) (password : String) : TDCall :=
  { source := src
    plaid_mode := !args.no_plaid
    lazy_load := args.lazy_load
    encryption := decryptionParamsArg args password
    num_readers := args.num_readers
    verify_hash := args.verify_hash }

end DeserializeExample

open Tensorizer DeserializeExample

/-! Concrete instances on which the definitions are evaluated. -/

/-- Whether a pipeline outcome succeeded. -/
def outcomeOk : Except TzError (List Nat) → Bool
  | Except.ok _ => true
  | Except.error _ => false

/-- Options with hash verification on, no decryption. -/
def c1Opts : Options :=
  { plaid_mode := true, lazy_load := false, decryption := none,
    num_readers := 1, verify_hash := true }

/-- A descriptor whose stored hash is the digest of the original payload
bytes `[1, 2]`, while the container below holds tampered bytes. -/
def c1dTampered : TensorDescriptor :=
  { name := "t1", dtype := 1, shape := [2], offset := 0, length := 2,
    contentHash := digest [1, 2], encrypted := false }

/-- A sibling descriptor whose payload is intact. -/
def c1dOther : TensorDescriptor :=
  { name := "t2", dtype := 1, shape := [1], offset := 2, length := 1,
    contentHash := digest [7], encrypted := false }

/-- A container in which exactly the first tensor's payload was changed
after its content hash was stored (data holds 9 where 1 was hashed). -/
def c1Container : Container :=
  { tensors := [c1dTampered, c1dOther], data := [9, 2, 7] }

/-- Options for the plaid/eager comparison. -/
def c2Opts : Options :=
  { plaid_mode := true, lazy_load := false, decryption := none,
    num_readers := 1, verify_hash := true }

/-- A valid single-tensor descriptor: two one-byte elements. -/
def c2d : TensorDescriptor :=
  { name := "w", dtype := 1, shape := [2], offset := 0, length := 2,
    contentHash := digest [1, 2], encrypted := false }

/-- A valid container for the plaid/eager comparison. -/
def c2Container : Container :=
  { tensors := [c2d], data := [1, 2] }

/-- A caller-owned destination region, pre-sized to the descriptor and
holding stale bytes. -/
def c2Region : List Nat := [5, 5]

/-- A descriptor whose encrypted flag is set. -/
def c3d : TensorDescriptor :=
  { name := "enc", dtype := 1, shape := [1], offset := 0, length := 1,
    contentHash := digest [3], encrypted := true }

/-- An encrypted container. -/
def c3Container : Container :=
  { tensors := [c3d], data := [3] }

/-- Options with no DecryptionContext supplied. -/
def c3Opts : Options :=
  { plaid_mode := false, lazy_load := false, decryption := none,
    num_readers := 2, verify_hash := false }

/-- A well-formed raw container: magic, version 1, entry count 1, one
record (name t, dtype 1, shape [2], offset 0, length 2, hash 51,
unencrypted), data region of 2 bytes. -/
def c4Good : List Nat :=
  [84, 90, 82, 33, 1, 1, 0,
   1, 116, 1, 1, 2, 0, 0, 0, 0, 0, 2, 0, 0, 0,
   51, 0, 0, 0, 0, 0, 0, 0, 0,
   2, 0, 0, 0, 1, 2]

/-- The container `c4Good` parses to. -/
def c4Parsed : Container :=
  { tensors := [{ name := "t", dtype := 1, shape := [2], offset := 0,
                  length := 2, contentHash := 51, encrypted := false }]
    data := [1, 2] }

/-- A raw container whose header declares two entries but whose record
stream ends before any record. -/
def c4Truncated : List Nat := [84, 90, 82, 33, 1, 2, 0]

/-- Options for the stats run: no verification, no decryption. -/
def c6Opts : Options :=
  { plaid_mode := false, lazy_load := false, decryption := none,
    num_readers := 1, verify_hash := false }

/-- A two-tensor container of total declared size 3 bytes. -/
def c6Container : Container :=
  { tensors :=
      [{ name := "a", dtype := 1, shape := [2], offset := 0, length := 2,
         contentHash := digest [1, 2], encrypted := false },
       { name := "b", dtype := 1, shape := [1], offset := 2, length := 1,
         contentHash := digest [7], encrypted := false }]
    data := [1, 2, 7] }

/-- Options with two reader workers. -/
def c8Opts : Options :=
  { plaid_mode := false, lazy_load := false, decryption := none,
    num_readers := 2, verify_hash := true }

/-- First tensor of the two-worker run. -/
def c8d1 : TensorDescriptor :=
  { name := "x", dtype := 1, shape := [1], offset := 0, length := 1,
    contentHash := digest [4], encrypted := false }

/-- Second tensor of the two-worker run. -/
def c8d2 : TensorDescriptor :=
  { name := "y", dtype := 1, shape := [1], offset := 1, length := 1,
    contentHash := digest [5], encrypted := false }

/-- A container of two independent tensors. -/
def c8Container : Container :=
  { tensors := [c8d1, c8d2], data := [4, 5] }

/-- One tensor per worker, workers in swapped order. -/
def c8Assignment : List (List TensorDescriptor) := [[c8d2], [c8d1]]

/-- A completion order different from container order. -/
def c8Order : List TensorDescriptor := [c8d2, c8d1]

/-- A driver invocation with no --source argument. -/
def c9Args : Args :=
  { source := none, model_ref := "EleutherAI/gpt-j-6B", no_plaid := false,
    lazy_load := false, verify_hash := false, encryption := false,
    viztracer := false, num_readers := 1 }

/-- Measurements (unused on the NameError path). -/
def c9Meas : Measurements :=
  { totalTensorBytes := 0, startTime := 0, endTime := 0, cudaBytes := 0,
    cudaToDeviceSecs := 0, fileReadintoBytes := 0, fileReadintoSecs := 0 }

/-- A driver invocation with an explicit source. -/
def c10Args : Args :=
  { source := some "gpt-j-6B.tensors", model_ref := "EleutherAI/gpt-j-6B",
    no_plaid := false, lazy_load := false, verify_hash := false,
    encryption := false, viztracer := false, num_readers := 1 }

/-- A run whose load finished within the clock's resolution: the
wall-clock duration is zero. -/
def c10Meas : Measurements :=
  { totalTensorBytes := 100, startTime := 5, endTime := 5, cudaBytes := 100,
    cudaToDeviceSecs := 1, fileReadintoBytes := 100, fileReadintoSecs := 1 }

/-! Helper lemmas. -/

theorem digest_inj : ∀ {as bs : List Nat}, digest as = digest bs → as = bs := by
  intro as
  induction as with
  | nil =>
    intro bs h
    cases bs with
    | nil => rfl
    | cons b bs => simp [digest] at h
  | cons a as ih =>
    intro bs h
    cases bs with
    | nil => simp [digest] at h
    | cons b bs =>
      simp only [digest, Nat.add_right_cancel_iff] at h
      obtain ⟨h1, h2⟩ := Nat.pair_eq_pair.mp h
      rw [h1, ih h2]

theorem decryptBytes_length (ctx : DecryptionContext) (bs : List Nat) :
    (decryptBytes ctx bs).length = bs.length := by
  simp [decryptBytes]

theorem payload_length (C : Container) (d : TensorDescriptor)
    (h : d.offset + d.length ≤ C.data.length) :
    (payload C d).length = d.length := by
  simp [payload]
  omega

theorem decodeStage_ok_length (opts : Options) (d : TensorDescriptor)
    (raw plain : List Nat) (h : decodeStage opts d raw = Except.ok plain) :
    plain.length = raw.length := by
  unfold decodeStage at h
  split at h
  · split at h
    · simp at h
    · rename_i ctx hctx
      cases h
      exact decryptBytes_length ctx raw
  · cases h
    rfl

theorem verifyStage_ok_eq (opts : Options) (d : TensorDescriptor)
    (plain out : List Nat) (h : verifyStage opts d plain = Except.ok out) :
    out = plain := by
  unfold verifyStage at h
  split at h
  · split at h
    · cases h; rfl
    · simp at h
  · cases h; rfl

theorem runPipeline_ok_length (opts : Options) (C : Container)
    (d : TensorDescriptor) (plain : List Nat)
    (h : runPipeline opts C d = Except.ok plain) :
    plain.length = (payload C d).length := by
  unfold runPipeline at h
  split at h
  · simp at h
  · rename_i plain' heq
    rw [verifyStage_ok_eq opts d plain' plain h]
    exact decodeStage_ok_length opts d (payload C d) plain' heq

theorem lookupName_perm {α : Type} {l₁ l₂ : List (String × α)}
    (hp : l₁.Perm l₂) (hn : (l₁.map Prod.fst).Nodup) (k : String) :
    lookupName k l₁ = lookupName k l₂ := by
  induction hp with
  | nil => rfl
  | cons x _ ih =>
    simp only [List.map_cons, List.nodup_cons] at hn
    simp only [lookupName]
    by_cases hk : x.1 = k
    · simp [hk]
    · simp only [if_neg hk]
      exact ih hn.2
  | swap x y l =>
    simp only [List.map_cons, List.nodup_cons, List.mem_cons, not_or] at hn
    simp only [lookupName]
    by_cases hy : y.1 = k
    · by_cases hx : x.1 = k
      · exact absurd (hy.trans hx.symm) hn.1.1
      · simp [hy, hx]
    · by_cases hx : x.1 = k
      · simp [hy, hx]
      · simp [hy, hx]
  | trans h₁ _ ih₁ ih₂ =>
    refine (ih₁ hn).trans (ih₂ ?_)
    exact ((h₁.map Prod.fst).nodup_iff).mp hn

/-! Claim theorems. -/

/-- C7: calling close() a second time on the same Deserializer produces
no error and releases no resource twice (the facade state is unchanged by
the second close, and in particular the release count does not grow);
close() is idempotent, and every operation other than close invoked after
the Closed state fails with DeserializerClosed. -/
theorem close_idempotent_and_closed_rejects (f : Facade) :
    (closeFacade f).2 = none ∧
    (closeFacade (closeFacade f).1).2 = none ∧
    (closeFacade (closeFacade f).1).1 = (closeFacade f).1 ∧
    (closeFacade (closeFacade f).1).1.releaseCount = (closeFacade f).1.releaseCount ∧
    (∀ op : FacadeOp, dispatch (closeFacade f).1 op =
      Except.error TzError.DeserializerClosed) := by
  by_cases h : f.phase = Phase.Closed <;>
    simp [closeFacade, dispatch, h]

/-- C5 counterexample: the TensorDeserializer construction in
`examples/deserialize.py` has no keyword argument named `decryption`; the
optional decryption parameters travel under a different keyword. -/
theorem no_decryption_keyword :
    ("decryption" ∈ tensorDeserializerCallKeywords) = False := by
  simp [tensorDeserializerCallKeywords]

/-- C5 (amended): the construction accepts an option named `encryption`
of type optional DecryptionParams (alongside plaid_mode, lazy_load,
num_readers, verify_hash), and supplying the caller-derived secret
through DecryptionParams.from_string under that option is how encrypted
containers are opened; no option named `decryption` exists. -/
theorem encryption_keyword_carries_params (args : Args) (src password : String) :
    ("plaid_mode" ∈ tensorDeserializerCallKeywords ∧
     "lazy_load" ∈ tensorDeserializerCallKeywords ∧
     "encryption" ∈ tensorDeserializerCallKeywords ∧
     "num_readers" ∈ tensorDeserializerCallKeywords ∧
     "verify_hash" ∈ tensorDeserializerCallKeywords ∧
     "decryption" ∉ tensorDeserializerCallKeywords) ∧
    (mkTDCall args src password).encryption =
      (if args.encryption then some (DecryptionParams.from_string password)
       else none) := by
  refine ⟨by simp [tensorDeserializerCallKeywords], ?_⟩
  simp [mkTDCall, decryptionParamsArg]

/-- C9: for every invocation of the example driver without a --source
argument, the default-source branch interpolates the name s3_bucket,
which is never bound anywhere in the module, so the driver raises
NameError before any deserializer is constructed or any byte read (the
event trace is empty). -/
theorem default_source_raises_nameError (args : Args) (m : Measurements)
    (h : args.source = none) :
    runDriver args m = ([], some (PyError.nameError "s3_bucket")) ∧
    "s3_bucket" ∉ moduleBoundNames := by
  constructor
  · simp [runDriver, resolveSource, h, evalFString, sourceDefaultFString,
      driverEnv, lookupName]
  · simp [moduleBoundNames]

theorem runPipeline_ok_of_hash_eq (opts : Options) (C : Container)
    (d : TensorDescriptor) (henc : d.encrypted = false)
    (hh : digest (payload C d) = d.contentHash) :
    runPipeline opts C d = Except.ok (payload C d) := by
  unfold runPipeline decodeStage verifyStage
  simp [henc, hh]

theorem runPipeline_hash_mismatch (opts : Options) (C : Container)
    (d : TensorDescriptor) (henc : d.encrypted = false)
    (hv : opts.verify_hash = true)
    (hh : digest (payload C d) ≠ d.contentHash) :
    runPipeline opts C d =
      Except.error (TzError.HashMismatch d.name d.contentHash
        (digest (payload C d))) := by
  unfold runPipeline decodeStage verifyStage
  simp [henc, hv, hh]

theorem writeInto_exact (region src : List Nat)
    (h : src.length = region.length) : writeInto region src = src := by
  unfold writeInto
  rw [← h, List.take_left]

theorem parseRecords_length :
    ∀ (n : Nat) (bs : List Nat) (ds : List TensorDescriptor) (rest : List Nat),
    parseRecords n bs = some (ds, rest) → ds.length = n := by
  intro n
  induction n with
  | zero =>
    intro bs ds rest h
    simp [parseRecords] at h
    simp [h.1]
  | succ k ih =>
    intro bs ds rest h
    unfold parseRecords at h
    cases hrec : parseRecord bs with
    | none => simp only [hrec] at h; exact absurd h (by simp)
    | some p =>
      obtain ⟨d, r⟩ := p
      simp only [hrec] at h
      cases hrecs : parseRecords k r with
      | none => simp only [hrecs] at h; exact absurd h (by simp)
      | some q =>
        obtain ⟨ds', rest'⟩ := q
        simp only [hrecs, Option.some.injEq, Prod.mk.injEq] at h
        rw [← h.1]
        simp [ih r ds' rest' hrecs]

theorem statesFor_keys (opts : Options) (C : Container)
    (l : List TensorDescriptor) :
    (statesFor opts C l).map Prod.fst = l.map TensorDescriptor.name := by
  simp [statesFor]

/-- C1: for a container in which exactly one tensor's payload bytes were
flipped after its content hash was stored, `load_into` with
verify_hash = true reports HashMismatch for exactly that tensor and Ready
for every other tensor; siblings' pipelines are not aborted, and the
LoadReport lists every failed tensor with its error instead of raising on
the first failure. -/
theorem tamper_detection_localized (opts : Options) (C' : Container)
    (pre post : List TensorDescriptor) (dT : TensorDescriptor)
    (orig : List Nat)
    (hsplit : C'.tensors = pre ++ dT :: post)
    (hverify : opts.verify_hash = true)
    (hok : ∀ d ∈ pre ++ post,
      d.encrypted = false ∧ digest (payload C' d) = d.contentHash)
    (henc : dT.encrypted = false)
    (hhash : dT.contentHash = digest orig)
    (htamper : payload C' dT ≠ orig) :
    (loadInto opts C').states =
      pre.map (fun d => (d.name, LoadState.Ready)) ++
        (dT.name, LoadState.Failed (TzError.HashMismatch dT.name
          dT.contentHash (digest (payload C' dT)))) ::
        post.map (fun d => (d.name, LoadState.Ready)) ∧
    (loadInto opts C').failures =
      [(dT.name, TzError.HashMismatch dT.name dT.contentHash
        (digest (payload C' dT)))] := by
  have hbad : runPipeline opts C' dT =
      Except.error (TzError.HashMismatch dT.name dT.contentHash
        (digest (payload C' dT))) := by
    refine runPipeline_hash_mismatch opts C' dT henc hverify ?_
    rw [hhash]
    intro heq
    exact htamper (digest_inj heq)
  have hgood : ∀ d ∈ pre ++ post,
      runPipeline opts C' d = Except.ok (payload C' d) := by
    intro d hd
    exact runPipeline_ok_of_hash_eq opts C' d (hok d hd).1 (hok d hd).2
  constructor
  · simp only [loadInto, hsplit, List.map_append, List.map_cons]
    rw [hbad]
    congr 1
    · refine List.map_congr_left ?_
      intro d hd
      rw [hgood d (List.mem_append_left post hd)]
      rfl
    · congr 1
      refine List.map_congr_left ?_
      intro d hd
      rw [hgood d (List.mem_append_right pre hd)]
      rfl
  · simp only [loadInto, hsplit, List.filterMap_append, List.filterMap_cons]
    rw [hbad]
    rw [List.filterMap_eq_nil_iff.mpr (fun d hd => by
      rw [hgood d (List.mem_append_left post hd)])]
    rw [List.filterMap_eq_nil_iff.mpr (fun d hd => by
      rw [hgood d (List.mem_append_right pre hd)])]
    rfl

/-- C1 witness: a two-tensor container whose first tensor's payload was
changed from [1, 2] to [9, 2] after hashing; the load reports
HashMismatch exactly for it and Ready for the sibling. -/
theorem tamper_detection_localized_witness :
    (c1Container.tensors = [] ++ c1dTampered :: [c1dOther]) ∧
    c1Opts.verify_hash = true ∧
    (∀ d ∈ ([] ++ [c1dOther] : List TensorDescriptor),
      d.encrypted = false ∧ digest (payload c1Container d) = d.contentHash) ∧
    c1dTampered.encrypted = false ∧
    c1dTampered.contentHash = digest [1, 2] ∧
    payload c1Container c1dTampered ≠ [1, 2] ∧
    ((loadInto c1Opts c1Container).states =
      ([] : List TensorDescriptor).map (fun d => (d.name, LoadState.Ready)) ++
        (c1dTampered.name, LoadState.Failed (TzError.HashMismatch
          c1dTampered.name c1dTampered.contentHash
          (digest (payload c1Container c1dTampered)))) ::
        [c1dOther].map (fun d => (d.name, LoadState.Ready)) ∧
     (loadInto c1Opts c1Container).failures =
      [(c1dTampered.name, TzError.HashMismatch c1dTampered.name
        c1dTampered.contentHash (digest (payload c1Container c1dTampered)))]) :=
  ⟨rfl, rfl, by decide, rfl, rfl, by decide,
    tamper_detection_localized c1Opts c1Container [] [c1dOther] c1dTampered
      [1, 2] rfl rfl (by decide) rfl rfl (by decide)⟩

/-- C2: loading a tensor in plaid (zero-copy) mode into a pre-sized
destination region and loading the same tensor in eager mode into a
freshly allocated host buffer yields byte-identical contents: both
binders deliver exactly the pipeline's plaintext, for every tensor of
every container whose load succeeds. -/
theorem plaid_eager_byte_identical (opts : Options) (C : Container)
    (d : TensorDescriptor) (region : List Nat)
    (hd : d ∈ C.tensors)
    (hbound : d.offset + d.length ≤ C.data.length)
    (hshape : d.length = shapeBytes d)
    (hreg : region.length = d.length)
    (plain : List Nat)
    (hok : runPipeline opts C d = Except.ok plain) :
    bindEager opts C d = Except.ok plain ∧
    bindPlaid opts C region d = Except.ok plain ∧
    bindEager opts C d = bindPlaid opts C region d := by
  have hlen : plain.length = d.length := by
    rw [runPipeline_ok_length opts C d plain hok]
    exact payload_length C d hbound
  have heager : bindEager opts C d = Except.ok plain := by
    unfold bindEager
    simp only [hok]
    rw [if_pos hshape, writeInto_exact _ _ (by simp [hlen])]
  have hplaid : bindPlaid opts C region d = Except.ok plain := by
    unfold bindPlaid
    simp only [hok]
    rw [if_pos hreg, writeInto_exact _ _ (by rw [hlen, hreg])]
  exact ⟨heager, hplaid, heager.trans hplaid.symm⟩

/-- C2 witness: a concrete container loaded into a stale but pre-sized
region and into a fresh buffer; both deliver the payload bytes [1, 2]. -/
theorem plaid_eager_byte_identical_witness :
    c2d ∈ c2Container.tensors ∧
    c2d.offset + c2d.length ≤ c2Container.data.length ∧
    c2d.length = shapeBytes c2d ∧
    c2Region.length = c2d.length ∧
    runPipeline c2Opts c2Container c2d = Except.ok [1, 2] ∧
    (bindEager c2Opts c2Container c2d = Except.ok [1, 2] ∧
     bindPlaid c2Opts c2Container c2Region c2d = Except.ok [1, 2] ∧
     bindEager c2Opts c2Container c2d = bindPlaid c2Opts c2Container c2Region c2d) :=
  ⟨by decide, by decide, by decide, by decide, rfl,
    plaid_eager_byte_identical c2Opts c2Container c2d c2Region (by decide)
      (by decide) (by decide) (by decide) [1, 2] rfl⟩

/-- C3: opening a container that contains at least one tensor with the
encrypted flag set, without supplying a DecryptionContext, fails with
MissingDecryptionParams before any range read of tensor payload bytes is
issued: the payload I/O-call counter over the whole run stays zero. -/
theorem missing_decryption_fail_fast (opts : Options) (C : Container)
    (henc : (C.tensors.any fun d => d.encrypted) = true)
    (hctx : opts.decryption = none) :
    openThenLoad opts C = (Except.error TzError.MissingDecryptionParams, 0) := by
  unfold openThenLoad openCheck
  rw [henc, hctx]
  rfl

/-- C3 witness: the single-tensor encrypted container opened with no
DecryptionContext fails with MissingDecryptionParams and a zero payload
read count. -/
theorem missing_decryption_fail_fast_witness :
    (c3Container.tensors.any fun d => d.encrypted) = true ∧
    c3Opts.decryption = none ∧
    openThenLoad c3Opts c3Container =
      (Except.error TzError.MissingDecryptionParams, 0) :=
  ⟨by decide, rfl, missing_decryption_fail_fast c3Opts c3Container (by decide) rfl⟩

/-- C4: for every raw container that parses successfully, the index's
tensor count equals the header's declared entry count and every
descriptor's offset + length lies within the data region; when the magic
bytes mismatch, or the version is unsupported, or the declared entry
count exceeds the parsed entries (the record stream is exhausted), the
parse fails with CorruptHeader, and by the result type no partial
container is returned. -/
theorem parse_header_validates (bs : List Nat) (C : Container)
    (h : parseContainer bs = Except.ok C) :
    declaredEntryCount bs = some C.tensors.length ∧
    (∀ d ∈ C.tensors, d.offset + d.length ≤ C.data.length) ∧
    (∀ bs' : List Nat, bs'.take 4 ≠ MAGIC →
      parseContainer bs' = Except.error TzError.CorruptHeader) ∧
    (∀ (bs' : List Nat) (v : Nat) (r : List Nat), bs'.take 4 = MAGIC →
      readLE 1 (bs'.drop 4) = some (v, r) →
      supportedVersions.contains v = false →
      parseContainer bs' = Except.error TzError.CorruptHeader) ∧
    parseContainer c4Truncated = Except.error TzError.CorruptHeader := by
  have hmain : declaredEntryCount bs = some C.tensors.length ∧
      ∀ d ∈ C.tensors, d.offset + d.length ≤ C.data.length := by
    unfold parseContainer at h
    by_cases hm : bs.take 4 = MAGIC
    · rw [if_pos hm] at h
      cases h1 : readLE 1 (bs.drop 4) with
      | none => simp only [h1] at h; exact absurd h (by simp)
      | some p1 =>
        obtain ⟨v, r1⟩ := p1
        simp only [h1] at h
        by_cases hv : supportedVersions.contains v
        · rw [if_pos hv] at h
          cases h2 : readLE 2 r1 with
          | none => simp only [h2] at h; exact absurd h (by simp)
          | some p2 =>
            obtain ⟨cnt, r2⟩ := p2
            simp only [h2] at h
            cases h3 : parseRecords cnt r2 with
            | none => simp only [h3] at h; exact absurd h (by simp)
            | some p3 =>
              obtain ⟨ds, r3⟩ := p3
              simp only [h3] at h
              cases h4 : readLE 4 r3 with
              | none => simp only [h4] at h; exact absurd h (by simp)
              | some p4 =>
                obtain ⟨dlen, r4⟩ := p4
                simp only [h4] at h
                by_cases h5 : dlen ≤ r4.length
                · rw [if_pos h5] at h
                  by_cases h6 : (ds.all fun d =>
                      d.offset + d.length ≤ dlen : Bool) = true
                  · rw [if_pos h6] at h
                    have hC : C = { tensors := ds, data := r4.take dlen } :=
                      ((Except.ok.injEq _ _).mp h).symm
                    constructor
                    · unfold declaredEntryCount
                      simp only [h1, h2]
                      rw [hC]
                      simp only
                      rw [parseRecords_length cnt r2 ds r3 h3]
                    · intro d hd
                      rw [hC] at hd
                      simp only at hd
                      have := List.all_eq_true.mp h6 d hd
                      have hle : d.offset + d.length ≤ dlen :=
                        of_decide_eq_true this
                      rw [hC]
                      simp only [List.length_take]
                      omega
                  · rw [if_neg h6] at h
                    simp at h
                · rw [if_neg h5] at h
                  simp at h
        · rw [if_neg hv] at h
          simp at h
    · rw [if_neg hm] at h
      simp at h
  refine ⟨hmain.1, hmain.2, ?_, ?_, by decide⟩
  · intro bs' hm'
    unfold parseContainer
    rw [if_neg hm']
  · intro bs' v r hm' hr hv
    unfold parseContainer
    rw [if_pos hm']
    simp only [hr]
    have hv' : ¬(supportedVersions.contains v = true) := by rw [hv]; simp
    rw [if_neg hv']

/-- C4 witness: a concrete well-formed raw container parses to one
descriptor whose extent fits the data region, with the declared entry
count matched; the truncated container is rejected with CorruptHeader. -/
theorem parse_header_validates_witness :
    parseContainer c4Good = Except.ok c4Parsed ∧
    (declaredEntryCount c4Good = some c4Parsed.tensors.length ∧
     (∀ d ∈ c4Parsed.tensors, d.offset + d.length ≤ c4Parsed.data.length) ∧
     (∀ bs' : List Nat, bs'.take 4 ≠ MAGIC →
       parseContainer bs' = Except.error TzError.CorruptHeader) ∧
     (∀ (bs' : List Nat) (v : Nat) (r : List Nat), bs'.take 4 = MAGIC →
       readLE 1 (bs'.drop 4) = some (v, r) →
       supportedVersions.contains v = false →
       parseContainer bs' = Except.error TzError.CorruptHeader) ∧
     parseContainer c4Truncated = Except.error TzError.CorruptHeader) :=
  ⟨by decide, parse_header_validates c4Good c4Parsed (by decide)⟩

theorem loadStats_accum (opts : Options) (C : Container) :
    ∀ (l : List TensorDescriptor) (s : PerfStats),
    (∀ d ∈ l, d.offset + d.length ≤ C.data.length) →
    (∀ d ∈ l, outcomeOk (runPipeline opts C d) = true) →
    (l.foldl (pipelineStats opts C) s).totalBytes =
      s.totalBytes + (l.map TensorDescriptor.length).sum ∧
    (l.foldl (pipelineStats opts C) s).readBytes =
      s.readBytes + (l.map TensorDescriptor.length).sum := by
  intro l
  induction l with
  | nil => intro s _ _; simp
  | cons d rest ih =>
    intro s hb hok
    have hb' : ∀ x ∈ rest, x.offset + x.length ≤ C.data.length :=
      fun x hx => hb x (List.mem_cons_of_mem d hx)
    have hok' : ∀ x ∈ rest, outcomeOk (runPipeline opts C x) = true :=
      fun x hx => hok x (List.mem_cons_of_mem d hx)
    have hpd : d.offset + d.length ≤ C.data.length :=
      hb d (List.mem_cons_self d rest)
    have hokd := hok d (List.mem_cons_self d rest)
    obtain ⟨plain, hplain⟩ : ∃ plain, runPipeline opts C d = Except.ok plain := by
      cases hr : runPipeline opts C d with
      | ok p => exact ⟨p, rfl⟩
      | error e => rw [hr] at hokd; simp [outcomeOk] at hokd
    have hplen : plain.length = d.length := by
      rw [runPipeline_ok_length opts C d plain hplain]
      exact payload_length C d hpd
    have ht : (pipelineStats opts C s d).totalBytes = s.totalBytes + d.length := by
      unfold pipelineStats
      simp only [hplain]
      simp [hplen]
    have hrB : (pipelineStats opts C s d).readBytes = s.readBytes + d.length := by
      unfold pipelineStats
      simp only [hplain]
      simp [payload_length C d hpd]
    obtain ⟨iht, ihr⟩ := ih (pipelineStats opts C s d) hb' hok'
    constructor
    · rw [List.foldl_cons, iht, ht]
      simp only [List.map_cons, List.sum_cons]
      omega
    · rw [List.foldl_cons, ihr, hrB]
      simp only [List.map_cons, List.sum_cons]
      omega

/-- C6: after loading a container whose tensors' declared lengths sum to
T bytes, with every descriptor in bounds and no pipeline failure,
`total_tensor_bytes()` returns exactly T and the perf-stats read-stage
byte counter is at least T. -/
theorem stats_accounting_totals (opts : Options) (C : Container)
    (hb : ∀ d ∈ C.tensors, d.offset + d.length ≤ C.data.length)
    (hok : ∀ d ∈ C.tensors, outcomeOk (runPipeline opts C d) = true) :
    totalTensorBytes opts C = (C.tensors.map TensorDescriptor.length).sum ∧
    (C.tensors.map TensorDescriptor.length).sum ≤ (loadStats opts C).readBytes := by
  obtain ⟨ht, hr⟩ := loadStats_accum opts C C.tensors initialStats hb hok
  unfold totalTensorBytes
  constructor
  · unfold loadStats
    rw [ht]
    simp [initialStats]
  · unfold loadStats
    rw [hr]
    simp [initialStats]

/-- C6 witness: a two-tensor container of total declared size 3 bytes
loads with no failures; total_tensor_bytes is 3 and the read counter is
at least 3. -/
theorem stats_accounting_totals_witness :
    (∀ d ∈ c6Container.tensors,
      d.offset + d.length ≤ c6Container.data.length) ∧
    (∀ d ∈ c6Container.tensors,
      outcomeOk (runPipeline c6Opts c6Container d) = true) ∧
    (totalTensorBytes c6Opts c6Container =
      (c6Container.tensors.map TensorDescriptor.length).sum ∧
     (c6Container.tensors.map TensorDescriptor.length).sum ≤
      (loadStats c6Opts c6Container).readBytes) :=
  ⟨by decide, by decide,
    stats_accounting_totals c6Opts c6Container (by decide) (by decide)⟩

/-- C8: a load run by N > 1 workers over any per-worker assignment
covering the container's M tensors once each, completing in any order,
produces the same per-tensor outcomes (the same Ready/Failed set and the
same bytes, queried by name) as the sequential run in container order,
and the result lists are permutations of one another. -/
theorem reader_count_invariance (opts : Options) (C : Container)
    (assignment : List (List TensorDescriptor))
    (order : List TensorDescriptor)
    (hjoin : assignment.flatten.Perm C.tensors)
    (horder : order.Perm assignment.flatten)
    (hN : 1 < assignment.length)
    (hNM : assignment.length ≤ C.tensors.length)
    (hnodup : (C.tensors.map TensorDescriptor.name).Nodup) :
    (statesFor opts C order).Perm (statesFor opts C C.tensors) ∧
    ∀ k, lookupName k (statesFor opts C order) =
      lookupName k (statesFor opts C C.tensors) := by
  have hperm : order.Perm C.tensors := horder.trans hjoin
  have hsperm : (statesFor opts C order).Perm (statesFor opts C C.tensors) :=
    hperm.map _
  refine ⟨hsperm, fun k => ?_⟩
  refine lookupName_perm hsperm ?_ k
  rw [statesFor_keys]
  exact ((hperm.map TensorDescriptor.name).nodup_iff).mpr hnodup

/-- C8 witness: two workers, one tensor each, completing in swapped
order, agree with the sequential run on both tensors. -/
theorem reader_count_invariance_witness :
    c8Assignment.flatten.Perm c8Container.tensors ∧
    c8Order.Perm c8Assignment.flatten ∧
    1 < c8Assignment.length ∧
    c8Assignment.length ≤ c8Container.tensors.length ∧
    (c8Container.tensors.map TensorDescriptor.name).Nodup ∧
    ((statesFor c8Opts c8Container c8Order).Perm
      (statesFor c8Opts c8Container c8Container.tensors) ∧
     ∀ k, lookupName k (statesFor c8Opts c8Container c8Order) =
       lookupName k (statesFor c8Opts c8Container c8Container.tensors)) :=
  ⟨by decide, by decide, by decide, by decide, by decide,
    reader_count_invariance c8Opts c8Container c8Assignment c8Order
      (by decide) (by decide) (by decide) (by decide) (by decide)⟩

/-- C9 witness: the concrete no-source invocation raises
NameError for s3_bucket with an empty event trace. -/
theorem default_source_raises_nameError_witness :
    c9Args.source = none ∧
    (runDriver c9Args c9Meas = ([], some (PyError.nameError "s3_bucket")) ∧
     "s3_bucket" ∉ moduleBoundNames) :=
  ⟨rfl, default_source_raises_nameError c9Args c9Meas rfl⟩

/-- C10: the driver's throughput reporting divides by the measured
wall-clock duration and by the cuda_to_device_secs and
file_readinto_secs counters with no zero guard; in any run that reaches
the reporting (a source was given) and in which one of those elapsed
values is zero, the driver raises ZeroDivisionError, and by then the
load step has already run. -/
theorem zero_elapsed_division_raises (args : Args) (m : Measurements)
    (hs : args.source.isSome = true)
    (hz : m.endTime - m.startTime = 0 ∨ m.cudaToDeviceSecs = 0 ∨
      m.fileReadintoSecs = 0) :
    (runDriver args m).2 = some PyError.zeroDivisionError ∧
    DriverEvent.loadIntoModule ∈ (runDriver args m).1 := by
  obtain ⟨s, hs'⟩ : ∃ s, args.source = some s := by
    cases hsrc : args.source with
    | none => rw [hsrc] at hs; simp at hs
    | some s => exact ⟨s, rfl⟩
  by_cases h1 : m.endTime - m.startTime = 0
  · simp [runDriver, resolveSource, hs', pyDiv, h1]
  · by_cases h2 : m.cudaToDeviceSecs = 0
    · simp [runDriver, resolveSource, hs', pyDiv, h1, h2]
    · by_cases h3 : m.fileReadintoSecs = 0
      · simp [runDriver, resolveSource, hs', pyDiv, h1, h2, h3]
      · rcases hz with h | h | h <;> contradiction

/-- C10 witness: a run with an explicit source whose measured wall-clock
duration is zero raises ZeroDivisionError after the load step ran. -/
theorem zero_elapsed_division_raises_witness :
    c10Args.source.isSome = true ∧
    (c10Meas.endTime - c10Meas.startTime = 0 ∨
     c10Meas.cudaToDeviceSecs = 0 ∨ c10Meas.fileReadintoSecs = 0) ∧
    ((runDriver c10Args c10Meas).2 = some PyError.zeroDivisionError ∧
     DriverEvent.loadIntoModule ∈ (runDriver c10Args c10Meas).1) :=
  ⟨rfl, Or.inl (by norm_num [c10Meas]),
    zero_elapsed_division_raises c10Args c10Meas rfl
      (Or.inl (by norm_num [c10Meas]))⟩
